import Mathlib

/-!
Verification of the screen-sendenv repository (screen-sendenv.py and
tmux-sendenv.py) against its specification.

The two Python scripts are shallowly embedded: external process execution
is modelled by a `World` record giving the outcome of running any command
vector, the content of the process environment, and the result of the
`screen -wipe` default-socket discovery pipeline.  Every external command
the tools attempt is recorded in an `Event` trace, tagged with whether it
was a connectivity test or a set/unset send, and with the sender
configuration that issued it.  Python exceptions become an `Err` inductive
threaded through `Except`.
-/

namespace SendEnv

/-- Outcome of launching an external process: it ran and exited zero, ran
and exited non-zero (Python `subprocess.CalledProcessError`), or could not
be started at all (Python `OSError`, e.g. executable not found). -/
inductive ProcOutcome
  | ok
  | nonzero (code : Nat)
  | startFailure
  deriving DecidableEq, Repr

/-- The external world both tools interact with.  `run` gives the outcome
of executing a command vector; `out` is the stdout text a command would
produce (both tools discard it); `getenv` is the process environment;
`screenWipeSocket` is the (stripped) output of the shell pipeline
`screen -wipe | grep ... | head -n1 | cut -f2` used by
`ScreenEnvSender.default_socket`. -/
structure World where
  run : List String → ProcOutcome
  out : List String → String
  getenv : String → Option String
  screenWipeSocket : String

/-- Errors raised by the tools.  `connectionError` is the
`Exception("Could not connect to specified session")` raised by
`EnvSender.verify_connection`; `autoDetectError` is the
`Exception("Unable to autodetect session type.")` raised by
`AutoSelectEnvSender`; `calledProcessError` is `subprocess.CalledProcessError`;
`osError` is the start-failure raised by `subprocess` when the executable
cannot be started; `valueError` is the `ValueError` raised by
tmux-sendenv.py's `sendenv_command`. -/
inductive Err
  | connectionError
  | autoDetectError
  | calledProcessError (cmd : List String) (code : Nat)
  | osError (cmd : List String)
  | valueError (msg : String)
  deriving DecidableEq, Repr

/-- Identity of the sender configuration issuing a command: the unified
tool's `ScreenEnvSender` or `TmuxEnvSender` (with their constructor-time
configuration), or the standalone tmux-sendenv.py tool. -/
inductive SenderId
  | screenId (path : String) (socket : Option String)
  | tmuxId (path : String) (socket : Option String) (session : Option Int)
  | tmuxStandaloneId (path : String) (socket : Option String)
  deriving DecidableEq, Repr

/-- One attempted external command: a connectivity test (built from
`test_command` / the dead `verify_socket` check) or a variable send
(built from `sendenv_command`), with the full command vector and the
outcome the world gave it. -/
inductive Event
  | test (sid : SenderId) (cmd : List String) (outcome : ProcOutcome)
  | send (sid : SenderId) (cmd : List String) (outcome : ProcOutcome)
  deriving DecidableEq, Repr

/-- Whether an event is a connectivity test. -/
def Event.isTest : Event → Bool
  | .test _ _ _ => true
  | .send _ _ _ => false

/-- Python `subprocess.check_call`: run the command, succeed on exit 0,
raise `CalledProcessError` on non-zero exit, raise `OSError` when the
process cannot be started. -/
def runCheckCall (w : World) (cmd : List String) : Except Err Unit :=
  match w.run cmd with
  | .ok => .ok ()
  | .nonzero c => .error (.calledProcessError cmd c)
  | .startFailure => .error (.osError cmd)

/-- Python truthiness-based defaulting `x or default` for optional string
arguments: `None` and the empty string both fall back to the default.
Used by `EnvSender.__init__` for `self.path = path or self.default_path`. -/
def orDefault (x : Option String) (d : String) : String :=
  match x with
  | none => d
  | some s => if s = "" then d else s

/-- State of `ScreenEnvSender` at construction time: resolved executable path
and the socket argument as given (possibly absent). -/
structure ScreenEnvSender where
  path : String
  socket : Option String
  deriving DecidableEq, Repr

/-- Construct a `ScreenEnvSender` as `EnvSender.__init__` does (before the
`verify_connection` call): `path or "screen"`, socket stored as given. -/
def mkScreen (path socket : Option String) : ScreenEnvSender :=
  ⟨orDefault path "screen", socket⟩

/-- The socket `ScreenEnvSender.socket_argspec` actually uses:
`self.socket or self.default_socket`.  When the stored socket is `None` or
empty, `default_socket` shells out to the `screen -wipe` pipeline, whose
stripped output is `w.screenWipeSocket`. -/
def ScreenEnvSender.effectiveSocket (w : World) (s : ScreenEnvSender) : String :=
  match s.socket with
  | none => w.screenWipeSocket
  | some sk => if sk = "" then w.screenWipeSocket else sk

/-- Embeds `ScreenEnvSender.socket_argspec`: `["-S", socket] if socket else []`. -/
def ScreenEnvSender.socket_argspec (w : World) (s : ScreenEnvSender) : List String :=
  let sk := s.effectiveSocket w
  if sk = "" then [] else ["-S", sk]

/-- Embeds `ScreenEnvSender.command_prelude`: `[path] + socket_argspec + ["-X"]`. -/
def ScreenEnvSender.command_prelude (w : World) (s : ScreenEnvSender) : List String :=
  [s.path] ++ s.socket_argspec w ++ ["-X"]

/-- Embeds `ScreenEnvSender.test_command`: `["echo", ""]`. -/
def ScreenEnvSender.test_command : List String := ["echo", ""]

/-- Embeds `ScreenEnvSender.sendenv_command`: `["unsetenv", name]` when the value
is absent, `["setenv", name, value]` otherwise. -/
def ScreenEnvSender.sendenv_command (name : String) (value : Option String) :
    List String :=
  match value with
  | none => ["unsetenv", name]
  | some v => ["setenv", name, v]

/-- State of `TmuxEnvSender` at construction time: resolved path, socket as
given, and the `session` keyword argument handled by `handle_kwargs`. -/
structure TmuxEnvSender where
  path : String
  socket : Option String
  session : Option Int
  deriving DecidableEq, Repr

/-- Construct a `TmuxEnvSender` as `EnvSender.__init__` plus
`TmuxEnvSender.handle_kwargs` do: `path or "tmux"`, socket and session
stored as given. -/
def mkTmux (path socket : Option String) (session : Option Int) : TmuxEnvSender :=
  ⟨orDefault path "tmux", socket, session⟩

/-- Embeds `TmuxEnvSender.session_argspec`: `[]` when `not self.session` (absent
or the falsy integer 0), else `["-t", str(session)]`. -/
def TmuxEnvSender.session_argspec (s : TmuxEnvSender) : List String :=
  match s.session with
  | none => []
  | some n => if n = 0 then [] else ["-t", toString n]

/-- Embeds `TmuxEnvSender.socket_argspec`: nothing for a falsy socket; otherwise
`-S socket` when the socket string contains `os.path.sep` (the POSIX path
separator character), else `-L socket`. -/
def TmuxEnvSender.socket_argspec (s : TmuxEnvSender) : List String :=
  match s.socket with
  | none => []
  | some sk =>
    if sk = "" then []
    else if sk.data.contains '/' then ["-S", sk] else ["-L", sk]

/-- Embeds `TmuxEnvSender.command_prelude`: `[path] + socket_argspec`. -/
def TmuxEnvSender.command_prelude (s : TmuxEnvSender) : List String :=
  [s.path] ++ s.socket_argspec

/-- Embeds `TmuxEnvSender.test_command`: `["list-sessions"] + session_argspec`. -/
def TmuxEnvSender.test_command (s : TmuxEnvSender) : List String :=
  ["list-sessions"] ++ s.session_argspec

/-- Embeds `TmuxEnvSender.sendenv_command`: `setenv` with `-u name` for an absent
value, `name value` otherwise, the session argspec in between. -/
def TmuxEnvSender.sendenv_command (s : TmuxEnvSender) (name : String)
    (value : Option String) : List String :=
  match value with
  | none => ["setenv"] ++ s.session_argspec ++ ["-u", name]
  | some v => ["setenv"] ++ s.session_argspec ++ [name, v]

/-- A constructed sender of the unified tool: one of the two `EnvSender`
subclasses. -/
inductive Sender
  | screen (s : ScreenEnvSender)
  | tmux (s : TmuxEnvSender)
  deriving DecidableEq, Repr

/-- The identity tag recorded in trace events for a sender. -/
def Sender.sid : Sender → SenderId
  | .screen s => .screenId s.path s.socket
  | .tmux s => .tmuxId s.path s.socket s.session

/-- Dispatch of `command_prelude` over the two subclasses.  The screen
variant consults the world because of the `default_socket` lookup. -/
def Sender.command_prelude (w : World) : Sender → List String
  | .screen s => s.command_prelude w
  | .tmux s => s.command_prelude

/-- Dispatch of `test_command` over the two subclasses. -/
def Sender.test_command : Sender → List String
  | .screen _ => ScreenEnvSender.test_command
  | .tmux s => s.test_command

/-- Dispatch of `sendenv_command` over the two subclasses. -/
def Sender.sendenv_command : Sender → String → Option String → List String
  | .screen _, name, value => ScreenEnvSender.sendenv_command name value
  | .tmux s, name, value => s.sendenv_command name value

/-- The full command vector `EnvSender.send_cmd` executes:
`command_prelude() + cmd + command_postlude()`, where `command_postlude`
is `[]` for both subclasses. -/
def Sender.send_cmd_vec (w : World) (sn : Sender) (cmd : List String) : List String :=
  sn.command_prelude w ++ cmd ++ []

/-- The full test command `verify_connection` passes to `send_cmd`. -/
def Sender.testVec (w : World) (sn : Sender) : List String :=
  sn.send_cmd_vec w sn.test_command

/-- The full set/unset command `send_variable` passes to `send_cmd`. -/
def Sender.sendVec (w : World) (sn : Sender) (name : String)
    (value : Option String) : List String :=
  sn.send_cmd_vec w (sn.sendenv_command name value)

/-- Embeds `EnvSender.verify_connection`: run the test command through
`send_cmd`; a `CalledProcessError` (non-zero exit) is caught and re-raised
as the connection error; an `OSError` (process not startable) is NOT
caught and propagates unchanged.  The attempted command is recorded as a
test event. -/
def Sender.verify_connection (w : World) (sn : Sender) :
    Except Err Unit × List Event :=
  (match w.run (sn.testVec w) with
   | .ok => .ok ()
   | .nonzero _ => .error .connectionError
   | .startFailure => .error (.osError (sn.testVec w)),
   [.test sn.sid (sn.testVec w) (w.run (sn.testVec w))])

/-- Embeds `EnvSender.send_variable`: build the set/unset command and run it via
`send_cmd` (`subprocess.check_call`).  The attempted command is recorded
as a send event. -/
def Sender.send_variable (w : World) (sn : Sender) (name : String)
    (value : Option String) : Except Err Unit × List Event :=
  (runCheckCall w (sn.sendVec w name value),
   [.send sn.sid (sn.sendVec w name value) (w.run (sn.sendVec w name value))])

/-- Constructing an `EnvSender` subclass instance: `__init__` stores the
configuration and then calls `verify_connection`, so construction succeeds
exactly when verification does, and any error it raises escapes the
constructor. -/
def constructSender (w : World) (sn : Sender) : Except Err Sender × List Event :=
  match sn.verify_connection w with
  | (.ok _, evs) => (.ok sn, evs)
  | (.error e, evs) => (.error e, evs)

/-- The screen candidate `AutoSelectEnvSender` builds from the CLI
arguments (the `session` kwarg is ignored by `ScreenEnvSender`). -/
def autoScreen (path socket : Option String) : Sender :=
  .screen (mkScreen path socket)

/-- The tmux candidate `AutoSelectEnvSender` builds from the CLI
arguments. -/
def autoTmux (path socket : Option String) (session : Option Int) : Sender :=
  .tmux (mkTmux path socket session)

/-- Embeds `AutoSelectEnvSender`: try each entry of the `session_types` dict
(declaration order: screen, then tmux); a bare `except:` swallows ANY
error from construction-plus-verification and moves to the next kind; the
`for`/`else` raises the autodetect error when no kind returned. -/
def AutoSelectEnvSender (w : World) (path socket : Option String)
    (session : Option Int) : Except Err Sender × List Event :=
  match constructSender w (autoScreen path socket) with
  | (.ok s, evs) => (.ok s, evs)
  | (.error _, evs1) =>
    match constructSender w (autoTmux path socket session) with
    | (.ok s, evs2) => (.ok s, evs1 ++ evs2)
    | (.error _, evs2) => (.error .autoDetectError, evs1 ++ evs2)

/-- Python `s.split("=", 1)` restricted to the success case: split at the
FIRST `=`, returning the part before it and the whole remainder (which may
itself contain `=`).  Returns `none` when the string has no `=`, matching
the drivers' `var.find("=") != -1` guard. -/
def splitFirstEq : List Char → Option (List Char × List Char)
  | [] => none
  | c :: rest =>
    if c = '=' then some ([], rest)
    else (splitFirstEq rest).map (fun p => (c :: p.1, p.2))

/-- The variable-parsing step shared verbatim by both drivers' main loops:
`var, value = var.split("=", 1)` when the argument contains `=`, else
`value = os.getenv(var)`. -/
def parseVar (env : String → Option String) (arg : String) :
    String × Option String :=
  match splitFirstEq arg.data with
  | some (n, v) => (String.mk n, some (String.mk v))
  | none => (arg, env arg)

/-- The unified tool's `if value == "" and unset_empty: value = None`
step.  Note Python's `None == ""` is `False`, so an absent value is left
absent no matter the flag. -/
def resolveUnsetEmpty (unsetEmpty : Bool) (value : Option String) :
    Option String :=
  if value = some "" && unsetEmpty then none else value

/-- One iteration of the unified tool's send loop for argument `v`:
parse, apply the unset-empty rule, and send through the sender. -/
def sendVar1 (w : World) (sn : Sender) (unsetEmpty : Bool) (v : String) :
    Except Err Unit × List Event :=
  let p := parseVar w.getenv v
  sn.send_variable w p.1 (resolveUnsetEmpty unsetEmpty p.2)

/-- The unified tool's `for var in vars: ... sender.send_variable(...)`
loop: arguments processed left to right; the first raised error aborts
the loop and propagates. -/
def sendLoop (w : World) (sn : Sender) (unsetEmpty : Bool) :
    List String → Except Err Unit × List Event
  | [] => (.ok (), [])
  | v :: rest =>
    match sendVar1 w sn unsetEmpty v with
    | (.ok _, evs) =>
      let r := sendLoop w sn unsetEmpty rest
      (r.1, evs ++ r.2)
    | (.error e, evs) => (.error e, evs)

/-- The `session_type` CLI choice of the unified tool. -/
inductive SessionType
  | screen
  | tmux
  | auto
  deriving DecidableEq, Repr

/-- Embeds `session_types_incl_auto[session_type](path=..., socket=..., session=...)`:
resolve the session-type choice to a constructed (verified) sender. -/
def chooseSender (w : World) (st : SessionType) (path socket : Option String)
    (session : Option Int) : Except Err Sender × List Event :=
  match st with
  | .screen => constructSender w (.screen (mkScreen path socket))
  | .tmux => constructSender w (.tmux (mkTmux path socket session))
  | .auto => AutoSelectEnvSender w path socket session

/-- screen-sendenv.py `main` (logging configuration elided): construct the
sender (which verifies connectivity), then either just list it or send
each variable in argument order. -/
def screenSendenvMain (w : World) (unsetEmpty listFlag : Bool)
    (st : SessionType) (session : Option Int) (socket path : Option String)
    (vars : List String) : Except Err Unit × List Event :=
  match chooseSender w st path socket session with
  | (.error e, evs) => (.error e, evs)
  | (.ok sn, evs) =>
    if listFlag then (.ok (), evs)
    else
      let r := sendLoop w sn unsetEmpty vars
      (r.1, evs ++ r.2)

namespace TmuxStandalone

/-- tmux-sendenv.py `socket_spec`: `["-S", socket] if socket else []` —
always `-S`, regardless of the socket string's content. -/
def socket_spec (socket : Option String) : List String :=
  match socket with
  | none => []
  | some s => if s = "" then [] else ["-S", s]

/-- tmux-sendenv.py `sendenv_command`: raise `ValueError` on an empty
name; resolve an absent value from the environment; `-u name` unsets,
`name value` sets; full vector is `[tmuxpath] + socket_spec + tmux_cmd`. -/
def sendenv_command (env : String → Option String) (name : String)
    (value : Option String) (socket : Option String) (tmuxpath : String) :
    Except Err (List String) :=
  if name = "" then .error (.valueError "Name must be a nonempty string")
  else
    let value := match value with
      | none => env name
      | some v => some v
    let tmux_cmd := match value with
      | none => ["setenv", "-u", name]
      | some v => ["setenv", name, v]
    .ok ([tmuxpath] ++ socket_spec socket ++ tmux_cmd)

/-- tmux-sendenv.py `sendenv`: build the command (which may raise before
anything is executed) and `check_call` it. -/
def sendenv (w : World) (name : String) (value : Option String)
    (socket : Option String) (tmuxpath : String) :
    Except Err Unit × List Event :=
  match sendenv_command w.getenv name value socket tmuxpath with
  | .error e => (.error e, [])
  | .ok cmd =>
    (runCheckCall w cmd, [.send (.tmuxStandaloneId tmuxpath socket) cmd (w.run cmd)])

/-- tmux-sendenv.py `verify_socket`: its body begins with a bare `return`,
so it succeeds immediately for every input — the socket check written
below that `return` is unreachable and no external command is run.  The
dead check is embedded separately as `verify_socket_dead_check`. -/
def verify_socket (_w : World) (_socket : Option String) (_tmuxpath : String) :
    Except Err Unit × List Event :=
  (.ok (), [])

/-- The unreachable code after the leading `return` in `verify_socket`,
embedded for reference: it would run `tmuxpath socket_spec server-info`
and turn a non-zero exit into `ValueError("Invalid socket")`. -/
def verify_socket_dead_check (w : World) (socket : Option String)
    (tmuxpath : String) : Except Err Unit × List Event :=
  let cmd := [tmuxpath] ++ socket_spec socket ++ ["server-info"]
  let oc := w.run cmd
  (match oc with
   | .ok => .ok ()
   | .nonzero _ => .error (.valueError "Invalid socket")
   | .startFailure => .error (.osError cmd),
   [.test (.tmuxStandaloneId tmuxpath socket) cmd oc])

/-- The variable loop of tmux-sendenv.py `main`: parse each argument and
send it; the first error aborts and propagates. -/
def mainLoop (w : World) (socket : Option String) (tmuxpath : String) :
    List String → Except Err Unit × List Event
  | [] => (.ok (), [])
  | v :: rest =>
    let p := parseVar w.getenv v
    match sendenv w p.1 p.2 socket tmuxpath with
    | (.ok _, evs) =>
      let r := mainLoop w socket tmuxpath rest
      (r.1, evs ++ r.2)
    | (.error e, evs) => (.error e, evs)

/-- tmux-sendenv.py `main` (logging elided): `verify_socket`, then the
variable loop. -/
def main (w : World) (socket : Option String) (tmuxpath : String)
    (vars : List String) : Except Err Unit × List Event :=
  match verify_socket w socket tmuxpath with
  | (.ok _, evs) =>
    let r := mainLoop w socket tmuxpath vars
    (r.1, evs ++ r.2)
  | (.error e, evs) => (.error e, evs)

end TmuxStandalone

/-- A world where every external command succeeds, the environment is
empty, and no running screen session is discovered. -/
def wOk : World :=
  ⟨fun _ => .ok, fun _ => "", fun _ => none, ""⟩

/-- A world where no external process can be started at all (executables
not found). -/
def wNoExe : World :=
  ⟨fun _ => .startFailure, fun _ => "", fun _ => none, ""⟩

/-- A world where the `screen -wipe` default-socket pipeline discovers a
running session named `1234.mysess`. -/
def wWipe : World :=
  ⟨fun _ => .ok, fun _ => "", fun _ => none, "1234.mysess"⟩

/-- A world where only `tmux list-sessions` works and every other command
(including the screen connectivity test) fails to start. -/
def wScreenDownTmuxUp : World :=
  ⟨fun cmd => if cmd = ["tmux", "list-sessions"] then .ok else .startFailure,
   fun _ => "", fun _ => none, ""⟩

/-- A world where the environment maps `FOO` to `1` and every command
succeeds. -/
def wEnvFoo : World :=
  ⟨fun _ => .ok, fun _ => "",
   fun n => if n = "FOO" then some "1" else none, ""⟩

/-- A world where every variable has value `1` and exactly the commands
mentioning `BAR` exit non-zero. -/
def wBarFails : World :=
  ⟨fun cmd => if "BAR" ∈ cmd then .nonzero 1 else .ok,
   fun _ => "", fun _ => some "1", ""⟩

/-- Trace well-formedness for the verified-before-send invariant: scanning
left to right with an accumulator of sender configurations whose test
command has succeeded, every send event must be issued by an
already-verified configuration. -/
def checkVerified (acc : List SenderId) : List Event → Bool
  | [] => true
  | .test sid _ oc :: rest =>
    checkVerified (if oc = .ok then sid :: acc else acc) rest
  | .send sid _ _ :: rest => decide (sid ∈ acc) && checkVerified acc rest

theorem splitFirstEq_eq_none (l : List Char) :
    splitFirstEq l = none ↔ '=' ∉ l := by
  induction l with
  | nil => simp [splitFirstEq]
  | cons c rest ih =>
    by_cases hc : c = '='
    · subst hc
      simp [splitFirstEq]
    · simp [splitFirstEq, hc, Option.map_eq_none', ih, Ne.symm hc]

theorem splitFirstEq_isSome (l : List Char) (h : '=' ∈ l) :
    (splitFirstEq l).isSome := by
  cases hs : splitFirstEq l with
  | none => exact absurd ((splitFirstEq_eq_none l).1 hs) (by simp [h])
  | some p => rfl

theorem splitFirstEq_some_spec (l n v : List Char)
    (h : splitFirstEq l = some (n, v)) :
    n ++ '=' :: v = l ∧ '=' ∉ n := by
  induction l generalizing n v with
  | nil => simp [splitFirstEq] at h
  | cons c rest ih =>
    by_cases hc : c = '='
    · subst hc
      rw [show splitFirstEq ('=' :: rest) = some ([], rest) by
        simp [splitFirstEq]] at h
      injection h with h
      have hn : ([] : List Char) = n := congrArg Prod.fst h
      have hv : rest = v := congrArg Prod.snd h
      subst hn; subst hv
      simp
    · rw [show splitFirstEq (c :: rest) =
          (splitFirstEq rest).map (fun p => (c :: p.1, p.2)) by
            simp [splitFirstEq, hc]] at h
      cases hrest : splitFirstEq rest with
      | none =>
        rw [hrest] at h
        simp at h
      | some p =>
        rw [hrest] at h
        simp only [Option.map_some', Option.some.injEq] at h
        obtain ⟨hl, hmem⟩ := ih p.1 p.2 (by rw [hrest])
        have hn : c :: p.1 = n := congrArg Prod.fst h
        have hv : p.2 = v := congrArg Prod.snd h
        subst hn; subst hv
        refine ⟨by simp [hl], ?_⟩
        simp only [List.mem_cons, not_or]
        exact ⟨Ne.symm hc, hmem⟩

theorem sendenv_events_no_test (w : World) (name : String)
    (value socket : Option String) (tmuxpath : String) :
    ((TmuxStandalone.sendenv w name value socket tmuxpath).2.all
      fun e => !e.isTest) = true := by
  unfold TmuxStandalone.sendenv
  split
  · rfl
  · simp [Event.isTest]

theorem mainLoop_no_test (w : World) (socket : Option String)
    (tmuxpath : String) (vars : List String) :
    ((TmuxStandalone.mainLoop w socket tmuxpath vars).2.all
      fun e => !e.isTest) = true := by
  induction vars with
  | nil => rfl
  | cons v rest ih =>
    rw [TmuxStandalone.mainLoop]
    rcases hs : TmuxStandalone.sendenv w (parseVar w.getenv v).1
      (parseVar w.getenv v).2 socket tmuxpath with ⟨r, evs⟩
    have hevs : (evs.all fun e => !e.isTest) = true := by
      have h := sendenv_events_no_test w (parseVar w.getenv v).1
        (parseVar w.getenv v).2 socket tmuxpath
      rw [hs] at h
      exact h
    cases r with
    | ok u => simp [hs, List.all_append, hevs, ih]
    | error e => simp [hs, hevs]

/-- C10: tmux-sendenv.py's `verify_socket` returns successfully for every
input, executing no external command and raising nothing (its body begins
with a bare `return`), and consequently the whole tmux-sendenv.py run
never performs a connectivity test before sending variables. -/
theorem C10_verify_socket_noop (w : World) (socket : Option String)
    (tmuxpath : String) (vars : List String) :
    TmuxStandalone.verify_socket w socket tmuxpath = (.ok (), []) ∧
    ((TmuxStandalone.main w socket tmuxpath vars).2.all
      fun e => !e.isTest) = true := by
  refine ⟨rfl, ?_⟩
  simp only [TmuxStandalone.main, TmuxStandalone.verify_socket, List.nil_append]
  exact mainLoop_no_test w socket tmuxpath vars

/-- C9 counterexample: in screen-sendenv.py, sending a variable with an
empty name raises no error at all — the external `setenv` command with the
empty name IS executed (here it even succeeds), contradicting the claim
that an InvalidArgumentError is raised before any external command. -/
theorem C9_empty_name_cex :
    Sender.send_variable wOk (.screen ⟨"screen", some "s"⟩) "" (some "x") =
      (.ok (),
       [.send (.screenId "screen" (some "s"))
          ["screen", "-S", "s", "-X", "setenv", "", "x"] .ok]) := by
  rfl

/-- C9 amended: only tmux-sendenv.py checks the variable name: its
`sendenv` fails with the ValueError before any external command is
executed (empty trace); screen-sendenv.py's `send_variable` performs no
such check and always issues the external set/unset command. -/
theorem C9_empty_name_amended (w : World) (value socket : Option String)
    (tmuxpath : String) (sn : Sender) :
    TmuxStandalone.sendenv w "" value socket tmuxpath =
      (.error (.valueError "Name must be a nonempty string"), []) ∧
    (Sender.send_variable w sn "" value).2 =
      [.send sn.sid (Sender.sendVec w sn "" value)
        (w.run (Sender.sendVec w sn "" value))] := by
  exact ⟨by simp [TmuxStandalone.sendenv, TmuxStandalone.sendenv_command], rfl⟩

/-- C5 counterexample: with NO socket given, `ScreenEnvSender` still
inserts `-S` into the prelude when `default_socket` (the `screen -wipe`
pipeline) discovers a running session — the prelude is not `[path, -X]`. -/
theorem C5_screen_default_socket_cex :
    (mkScreen none none).socket = none ∧
    ScreenEnvSender.command_prelude wWipe (mkScreen none none) =
      ["screen", "-S", "1234.mysess", "-X"] ∧
    ScreenEnvSender.command_prelude wWipe (mkScreen none none) ≠
      ["screen", "-X"] := by
  refine ⟨rfl, rfl, ?_⟩
  decide

/-- C5 amended: the screen prelude is `[path, -S σ, -X]` where σ is the
EFFECTIVE socket — the given one, or, when none (or an empty one) is
given, the one discovered by `default_socket` — and `-S` is dropped only
when the effective socket is empty; test, set and unset bodies are as
documented and the full command is prelude plus verb arguments. -/
theorem C5_screen_command_shapes (w : World) (p sk name v : String)
    (s : ScreenEnvSender) :
    (sk ≠ "" → ScreenEnvSender.command_prelude w ⟨p, some sk⟩ =
      [p, "-S", sk, "-X"]) ∧
    (s.socket = none → w.screenWipeSocket = "" →
      s.command_prelude w = [s.path, "-X"]) ∧
    (s.socket = none → s.command_prelude w =
      [s.path] ++
        (if w.screenWipeSocket = "" then []
         else ["-S", w.screenWipeSocket]) ++ ["-X"]) ∧
    (Sender.testVec w (.screen s) = s.command_prelude w ++ ["echo", ""]) ∧
    (Sender.sendVec w (.screen s) name (some v) =
      s.command_prelude w ++ ["setenv", name, v]) ∧
    (Sender.sendVec w (.screen s) name none =
      s.command_prelude w ++ ["unsetenv", name]) := by
  refine ⟨?_, ?_, ?_, ?_, ?_, ?_⟩
  · intro hsk
    simp [ScreenEnvSender.command_prelude, ScreenEnvSender.socket_argspec,
      ScreenEnvSender.effectiveSocket, hsk]
  · intro hs hw
    simp [ScreenEnvSender.command_prelude, ScreenEnvSender.socket_argspec,
      ScreenEnvSender.effectiveSocket, hs, hw]
  · intro hs
    simp only [ScreenEnvSender.command_prelude, ScreenEnvSender.socket_argspec,
      ScreenEnvSender.effectiveSocket, hs]
  · simp [Sender.testVec, Sender.send_cmd_vec, Sender.command_prelude,
      Sender.test_command, ScreenEnvSender.test_command]
  · simp [Sender.sendVec, Sender.send_cmd_vec, Sender.command_prelude,
      Sender.sendenv_command, ScreenEnvSender.sendenv_command]
  · simp [Sender.sendVec, Sender.send_cmd_vec, Sender.command_prelude,
      Sender.sendenv_command, ScreenEnvSender.sendenv_command]

/-- Witness for C5_screen_command_shapes at concrete inputs. -/
theorem C5_screen_command_shapes_witness :
    ScreenEnvSender.command_prelude wOk ⟨"screen", some "msock"⟩ =
      ["screen", "-S", "msock", "-X"] ∧
    ScreenEnvSender.command_prelude wOk ⟨"screen", none⟩ = ["screen", "-X"] := by
  have h := C5_screen_command_shapes wOk "screen" "msock" "x" "y" ⟨"screen", none⟩
  exact ⟨h.1 (by decide), h.2.1 rfl rfl⟩

/-- C4 counterexample: tmux-sendenv.py's `socket_spec` yields `-S` for a
socket WITHOUT a path separator, contradicting the claim that such a
socket always yields `-L`; its full set command shows the `-S` flag. -/
theorem C4_standalone_socket_cex :
    ("mysock".data.contains '/') = false ∧
    TmuxStandalone.socket_spec (some "mysock") = ["-S", "mysock"] ∧
    TmuxStandalone.socket_spec (some "mysock") ≠ ["-L", "mysock"] ∧
    TmuxStandalone.sendenv_command (fun _ => none) "FOO" (some "1")
      (some "mysock") "tmux" =
      .ok ["tmux", "-S", "mysock", "setenv", "FOO", "1"] := by
  exact ⟨by decide, rfl, by decide, rfl⟩

/-- C4 amended: the documented shapes (including the separator rule for
choosing `-S` versus `-L`) hold for the unified tool's `TmuxEnvSender`;
the standalone tmux-sendenv.py instead always uses `-S` for any non-empty
socket. -/
theorem C4_tmux_command_shapes (p sk name v : String) (sess : Option Int)
    (s : TmuxEnvSender) :
    (TmuxEnvSender.command_prelude ⟨p, none, sess⟩ = [p]) ∧
    (sk ≠ "" → sk.data.contains '/' = true →
      TmuxEnvSender.command_prelude ⟨p, some sk, sess⟩ = [p, "-S", sk]) ∧
    (sk ≠ "" → sk.data.contains '/' = false →
      TmuxEnvSender.command_prelude ⟨p, some sk, sess⟩ = [p, "-L", sk]) ∧
    (s.test_command = ["list-sessions"] ++ s.session_argspec) ∧
    (s.sendenv_command name (some v) =
      ["setenv"] ++ s.session_argspec ++ [name, v]) ∧
    (s.sendenv_command name none =
      ["setenv"] ++ s.session_argspec ++ ["-u", name]) ∧
    (∀ k : Int, k ≠ 0 →
      TmuxEnvSender.session_argspec ⟨p, none, some k⟩ = ["-t", toString k]) ∧
    (TmuxEnvSender.session_argspec ⟨p, none, none⟩ = []) ∧
    (sk ≠ "" → TmuxStandalone.socket_spec (some sk) = ["-S", sk]) := by
  refine ⟨rfl, ?_, ?_, rfl, rfl, rfl, ?_, rfl, ?_⟩
  · intro hsk hsep
    simp [TmuxEnvSender.command_prelude, TmuxEnvSender.socket_argspec, hsk]
    simpa using hsep
  · intro hsk hsep
    simp [TmuxEnvSender.command_prelude, TmuxEnvSender.socket_argspec, hsk]
    simpa using hsep
  · intro k hk
    simp [TmuxEnvSender.session_argspec, hk]
  · intro hsk
    simp [TmuxStandalone.socket_spec, hsk]

/-- Witness for C4_tmux_command_shapes at concrete inputs. -/
theorem C4_tmux_command_shapes_witness :
    TmuxEnvSender.command_prelude ⟨"tmux", some "/tmp/sock", none⟩ =
      ["tmux", "-S", "/tmp/sock"] ∧
    TmuxEnvSender.command_prelude ⟨"tmux", some "mysock", none⟩ =
      ["tmux", "-L", "mysock"] ∧
    TmuxEnvSender.session_argspec ⟨"tmux", none, some 3⟩ = ["-t", "3"] ∧
    TmuxStandalone.socket_spec (some "mysock") = ["-S", "mysock"] := by
  have h1 := C4_tmux_command_shapes "tmux" "/tmp/sock" "x" "y" none
    ⟨"tmux", none, none⟩
  have h2 := C4_tmux_command_shapes "tmux" "mysock" "x" "y" none
    ⟨"tmux", none, none⟩
  refine ⟨h1.2.1 (by decide) (by decide), h2.2.2.1 (by decide) (by decide),
    ?_, h2.2.2.2.2.2.2.2.2 (by decide)⟩
  exact h1.2.2.2.2.2.2.1 3 (by decide)

/-- C2 counterexample: when the test process cannot be started
(`startFailure`, e.g. executable not found), `verify_connection` does not
fail with the connection error — the uncaught `OSError` propagates
instead. -/
theorem C2_startfailure_cex :
    wNoExe.run (Sender.testVec wNoExe (autoScreen none none)) = .startFailure ∧
    (Sender.verify_connection wNoExe (autoScreen none none)).1 =
      .error (.osError ["screen", "-X", "echo", ""]) ∧
    Err.osError ["screen", "-X", "echo", ""] ≠ Err.connectionError := by
  exact ⟨rfl, rfl, by decide⟩

/-- C2 amended: `verify_connection` succeeds exactly when the test
process exits zero and fails with the connection error exactly when it
exits non-zero; when the process cannot be started, the uncaught start
error (`OSError`) propagates instead of a connection error; the result
ignores the output content of the test command; and the standalone
tmux-sendenv.py verifier never fails at all. -/
theorem C2_verify_connection_amended (w : World) (sn : Sender)
    (socket : Option String) (tmuxpath : String)
    (outF : List String → String) :
    ((Sender.verify_connection w sn).1 = .ok () ↔
      w.run (sn.testVec w) = .ok) ∧
    ((Sender.verify_connection w sn).1 = .error .connectionError ↔
      ∃ c, w.run (sn.testVec w) = .nonzero c) ∧
    (w.run (sn.testVec w) = .startFailure →
      (Sender.verify_connection w sn).1 = .error (.osError (sn.testVec w))) ∧
    Sender.verify_connection { w with out := outF } sn =
      Sender.verify_connection w sn ∧
    TmuxStandalone.verify_socket w socket tmuxpath = (.ok (), []) := by
  refine ⟨?_, ?_, ?_, ?_, rfl⟩
  · cases h : w.run (sn.testVec w) <;> simp [Sender.verify_connection, h]
  · cases h : w.run (sn.testVec w) <;> simp [Sender.verify_connection, h]
  · intro h
    simp [Sender.verify_connection, h]
  · rfl

/-- Witness for C2_verify_connection_amended at a concrete input with a
non-startable executable. -/
theorem C2_verify_connection_amended_witness :
    (Sender.verify_connection wNoExe (autoTmux none none none)).1 =
      .error (.osError (Sender.testVec wNoExe (autoTmux none none none))) := by
  have h := C2_verify_connection_amended wNoExe (autoTmux none none none)
    none "tmux" (fun _ => "")
  exact h.2.2.1 (by decide)

/-- C7 counterexample: with the unset-empty option DISABLED, a bare `FOO`
whose value is absent from the environment is still sent as an UNSET
(`unsetenv`) command, not as a set with an explicit empty-string value. -/
theorem C7_absent_value_cex :
    screenSendenvMain wOk false false .screen none (some "sock") none ["FOO"] =
      (.ok (),
       [.test (.screenId "screen" (some "sock"))
          ["screen", "-S", "sock", "-X", "echo", ""] .ok,
        .send (.screenId "screen" (some "sock"))
          ["screen", "-S", "sock", "-X", "unsetenv", "FOO"] .ok]) ∧
    ScreenEnvSender.sendenv_command "FOO"
      (resolveUnsetEmpty false (wOk.getenv "FOO")) ≠ ["setenv", "FOO", ""] := by
  exact ⟨rfl, by decide⟩

/-- C7 amended: an EMPTY-STRING value is converted to an unset operation
exactly when the unset-empty option is enabled, and sent as a set with an
explicit empty value otherwise; an ABSENT value (name unset in the
environment) is left absent by the option logic regardless of the flag
and therefore always yields an unset command, in both tools. -/
theorem C7_unset_empty_amended (ue : Bool) (name v : String)
    (s : TmuxEnvSender) :
    (resolveUnsetEmpty ue (some "") = if ue then none else some "") ∧
    (resolveUnsetEmpty ue none = none) ∧
    (v ≠ "" → resolveUnsetEmpty ue (some v) = some v) ∧
    ScreenEnvSender.sendenv_command name none = ["unsetenv", name] ∧
    ScreenEnvSender.sendenv_command name (some "") = ["setenv", name, ""] ∧
    s.sendenv_command name none =
      ["setenv"] ++ s.session_argspec ++ ["-u", name] := by
  refine ⟨?_, ?_, ?_, rfl, rfl, rfl⟩
  · cases ue <;> simp [resolveUnsetEmpty]
  · simp [resolveUnsetEmpty]
  · intro hv
    simp [resolveUnsetEmpty, hv]

/-- Witness for C7_unset_empty_amended at concrete inputs. -/
theorem C7_unset_empty_amended_witness :
    resolveUnsetEmpty true (some "") = none ∧
    resolveUnsetEmpty false (some "") = some "" ∧
    resolveUnsetEmpty false none = none ∧
    resolveUnsetEmpty true (some "x") = some "x" := by
  have ht := C7_unset_empty_amended true "N" "x" ⟨"tmux", none, none⟩
  have hf := C7_unset_empty_amended false "N" "x" ⟨"tmux", none, none⟩
  exact ⟨ht.1, hf.1, hf.2.1, ht.2.2.1 (by decide)⟩

/-- Whether construction-plus-verification of a sender succeeds (the
`try` body of `AutoSelectEnvSender` completing without an exception). -/
def senderConstructOk (w : World) (sn : Sender) : Bool :=
  match (sn.verify_connection w).1 with
  | .ok _ => true
  | .error _ => false

/-- C1: auto-selection returns a sender of the first kind (in the
`session_types` declaration order: screen, then tmux) whose
construction-plus-verification succeeds; ANY error from an earlier kind —
including the uncaught start error — is swallowed by the bare `except:`
and the next kind is tried; when every kind fails the call fails with the
autodetect error. -/
theorem C1_auto_select (w : World) (path socket : Option String)
    (session : Option Int) :
    (senderConstructOk w (autoScreen path socket) = true →
      (AutoSelectEnvSender w path socket session).1 =
        .ok (autoScreen path socket)) ∧
    (senderConstructOk w (autoScreen path socket) = false →
      senderConstructOk w (autoTmux path socket session) = true →
      (AutoSelectEnvSender w path socket session).1 =
        .ok (autoTmux path socket session)) ∧
    (senderConstructOk w (autoScreen path socket) = false →
      senderConstructOk w (autoTmux path socket session) = false →
      (AutoSelectEnvSender w path socket session).1 =
        .error .autoDetectError) := by
  refine ⟨?_, ?_, ?_⟩
  · intro h1
    rcases hs : Sender.verify_connection w (autoScreen path socket) with ⟨rs, evss⟩
    cases rs with
    | ok u => simp [AutoSelectEnvSender, constructSender, hs]
    | error e => simp [senderConstructOk, hs] at h1
  · intro h1 h2
    rcases hs : Sender.verify_connection w (autoScreen path socket) with ⟨rs, evss⟩
    rcases ht : Sender.verify_connection w (autoTmux path socket session)
      with ⟨rt, evst⟩
    cases rs with
    | ok u => simp [senderConstructOk, hs] at h1
    | error e =>
      cases rt with
      | ok u => simp [AutoSelectEnvSender, constructSender, hs, ht]
      | error e2 => simp [senderConstructOk, ht] at h2
  · intro h1 h2
    rcases hs : Sender.verify_connection w (autoScreen path socket) with ⟨rs, evss⟩
    rcases ht : Sender.verify_connection w (autoTmux path socket session)
      with ⟨rt, evst⟩
    cases rs with
    | ok u => simp [senderConstructOk, hs] at h1
    | error e =>
      cases rt with
      | ok u => simp [senderConstructOk, ht] at h2
      | error e2 => simp [AutoSelectEnvSender, constructSender, hs, ht]

/-- Witness for C1_auto_select: the screen test command cannot even be
started (a construction error), yet tmux is still tried and selected. -/
theorem C1_auto_select_witness :
    (AutoSelectEnvSender wScreenDownTmuxUp none none none).1 =
      .ok (autoTmux none none none) := by
  have h := C1_auto_select wScreenDownTmuxUp none none none
  exact h.2.1 (by decide) (by decide)

/-- C6: an argument containing `=` is split at the FIRST `=` only — the
name is the part before it (itself free of `=`), the value is the entire
remainder — independent of the environment; an argument without `=` takes
its value from the environment, absent when unset there. -/
theorem C6_cli_split (env env2 : String → Option String) (arg : String) :
    ('=' ∈ arg.data →
      ∃ n v : String, parseVar env arg = (n, some v) ∧
        n.data ++ '=' :: v.data = arg.data ∧
        '=' ∉ n.data ∧
        parseVar env2 arg = (n, some v)) ∧
    ('=' ∉ arg.data → parseVar env arg = (arg, env arg)) := by
  constructor
  · intro h
    have hs := splitFirstEq_isSome arg.data h
    rcases ho : splitFirstEq arg.data with _ | ⟨n, v⟩
    · rw [ho] at hs
      simp at hs
    · obtain ⟨hl, hmem⟩ := splitFirstEq_some_spec arg.data n v ho
      refine ⟨String.mk n, String.mk v, ?_, ?_, ?_, ?_⟩
      · simp [parseVar, ho]
      · exact hl
      · exact hmem
      · simp [parseVar, ho]
  · intro h
    have ho : splitFirstEq arg.data = none := (splitFirstEq_eq_none arg.data).2 h
    simp [parseVar, ho]

/-- Witness for C6_cli_split: `A=b=c` splits as name `A`, value `b=c`,
under two different environments; bare `FOO` unset in the environment
yields an absent value. -/
theorem C6_cli_split_witness :
    (∃ n v : String,
      parseVar (fun _ => some "zzz") "A=b=c" = (n, some v) ∧
        n.data ++ '=' :: v.data = "A=b=c".data ∧
        '=' ∉ n.data ∧
        parseVar (fun _ => none) "A=b=c" = (n, some v)) ∧
    parseVar (fun x => if x = "OTHER" then some "q" else none) "FOO" =
      ("FOO", none) := by
  constructor
  · exact (C6_cli_split (fun _ => some "zzz") (fun _ => none) "A=b=c").1 (by decide)
  · have h := (C6_cli_split (fun x => if x = "OTHER" then some "q" else none)
      (fun _ => none) "FOO").2 (by decide)
    exact h.trans (by decide)

/-- C3 counterexample: tmux-sendenv.py sends `FOO` through its (never
verified) configuration: the trace holds a send event and no successful
test event precedes it — the invariant fails on this tool. -/
theorem C3_unverified_send_cex :
    TmuxStandalone.main wEnvFoo none "tmux" ["FOO"] =
      (.ok (),
       [.send (.tmuxStandaloneId "tmux" none)
          ["tmux", "setenv", "FOO", "1"] .ok]) ∧
    checkVerified [] (TmuxStandalone.main wEnvFoo none "tmux" ["FOO"]).2 =
      false := by
  exact ⟨rfl, rfl⟩

/-- The full command of one send-loop iteration of the unified tool. -/
def sendVar1Vec (w : World) (sn : Sender) (ue : Bool) (v : String) :
    List String :=
  Sender.sendVec w sn (parseVar w.getenv v).1
    (resolveUnsetEmpty ue (parseVar w.getenv v).2)

theorem sendVar1_snd (w : World) (sn : Sender) (ue : Bool) (v : String) :
    (sendVar1 w sn ue v).2 =
      [.send sn.sid (sendVar1Vec w sn ue v) (w.run (sendVar1Vec w sn ue v))] :=
  rfl

/-- C8: sends are issued strictly left to right — when every argument
sends cleanly the trace is the concatenation of one send event per
argument in order; when the Nth send fails, exactly the first N commands
were issued (none after the failing one) and the error is the loop's
result; and the driver propagates the loop's error unchanged. -/
theorem C8_sequential_fail_fast (w : World) (sn : Sender) (ue : Bool) :
    (∀ l : List String, (∀ x ∈ l, (sendVar1 w sn ue x).1 = .ok ()) →
      sendLoop w sn ue l =
        (.ok (), (l.map fun x => (sendVar1 w sn ue x).2).flatten)) ∧
    (∀ (pre : List String) (v : String) (post : List String) (e : Err),
      (∀ x ∈ pre, (sendVar1 w sn ue x).1 = .ok ()) →
      (sendVar1 w sn ue v).1 = .error e →
      sendLoop w sn ue (pre ++ v :: post) =
        (.error e,
         (pre.map fun x => (sendVar1 w sn ue x).2).flatten ++
           (sendVar1 w sn ue v).2)) ∧
    (∀ (st : SessionType) (path socket : Option String) (session : Option Int)
        (vars : List String) (sn2 : Sender) (evs : List Event),
      chooseSender w st path socket session = (.ok sn2, evs) →
      screenSendenvMain w ue false st session socket path vars =
        ((sendLoop w sn2 ue vars).1, evs ++ (sendLoop w sn2 ue vars).2)) := by
  refine ⟨?_, ?_, ?_⟩
  · intro l hok
    induction l with
    | nil => rfl
    | cons x rest ih =>
      rcases hs : sendVar1 w sn ue x with ⟨r, evs⟩
      have hr : r = .ok () := by
        have h := hok x (by simp)
        rw [hs] at h
        exact h
      subst hr
      rw [sendLoop, hs, ih fun y hy => hok y (by simp [hy])]
      simp [hs]
  · intro pre v post e hok herr
    induction pre with
    | nil =>
      rcases hv : sendVar1 w sn ue v with ⟨r, evs⟩
      have hr : r = .error e := by
        rw [hv] at herr
        exact herr
      subst hr
      rw [List.nil_append, sendLoop, hv]
      simp
    | cons x rest ih =>
      rcases hs : sendVar1 w sn ue x with ⟨r, evs⟩
      have hr : r = .ok () := by
        have h := hok x (by simp)
        rw [hs] at h
        exact h
      subst hr
      rw [List.cons_append, sendLoop, hs, ih fun y hy => hok y (by simp [hy])]
      simp [hs]
  · intro st path socket session vars sn2 evs h
    rw [screenSendenvMain, h]
    simp

/-- Witness for C8_sequential_fail_fast: sending `FOO BAR BAZ` where the
`BAR` command exits non-zero issues exactly the `FOO` and `BAR` commands,
skips `BAZ`, and returns the `BAR` failure. -/
theorem C8_sequential_fail_fast_witness :
    sendLoop wBarFails (.screen ⟨"screen", some "s"⟩) false
      ["FOO", "BAR", "BAZ"] =
      (.error (.calledProcessError
          ["screen", "-S", "s", "-X", "setenv", "BAR", "1"] 1),
       [.send (.screenId "screen" (some "s"))
          ["screen", "-S", "s", "-X", "setenv", "FOO", "1"] .ok,
        .send (.screenId "screen" (some "s"))
          ["screen", "-S", "s", "-X", "setenv", "BAR", "1"] (.nonzero 1)]) := by
  have h := (C8_sequential_fail_fast wBarFails
    (.screen ⟨"screen", some "s"⟩) false).2.1 ["FOO"] "BAR" ["BAZ"]
    (.calledProcessError ["screen", "-S", "s", "-X", "setenv", "BAR", "1"] 1)
    (by
      intro x hx
      obtain rfl := List.mem_singleton.mp hx
      rfl)
    (by rfl)
  exact h.trans (by rfl)

theorem checkVerified_sendLoop (w : World) (sn : Sender) (ue : Bool)
    (acc : List SenderId) (hmem : sn.sid ∈ acc) (vars : List String) :
    checkVerified acc (sendLoop w sn ue vars).2 = true := by
  induction vars with
  | nil => rfl
  | cons v rest ih =>
    rcases hs : sendVar1 w sn ue v with ⟨r, evs⟩
    have hevs : evs = [.send sn.sid (sendVar1Vec w sn ue v)
        (w.run (sendVar1Vec w sn ue v))] :=
      (congrArg Prod.snd hs).symm.trans (sendVar1_snd w sn ue v)
    subst hevs
    cases r with
    | ok u =>
      rw [sendLoop, hs]
      simp [checkVerified, hmem, ih]
    | error e =>
      rw [sendLoop, hs]
      simp [checkVerified, hmem]

theorem checkVerified_test_ok_sends (w : World) (sn : Sender) (ue : Bool)
    (acc : List SenderId) (vars : List String) :
    checkVerified acc
      (Event.test sn.sid (sn.testVec w) .ok :: (sendLoop w sn ue vars).2) =
      true := by
  have h : checkVerified acc
      (Event.test sn.sid (sn.testVec w) .ok :: (sendLoop w sn ue vars).2) =
      checkVerified (sn.sid :: acc) (sendLoop w sn ue vars).2 := by
    simp [checkVerified]
  rw [h]
  exact checkVerified_sendLoop w sn ue _ (List.mem_cons_self _ _) vars

/-- C3 amended: in the unified tool (screen-sendenv.py) the invariant
holds — every set/unset command in any execution's trace is issued by a
sender configuration whose test command succeeded EARLIER in the same
trace (construction verifies before any send, for direct selection and
for auto-selection alike); tmux-sendenv.py however performs no
verification at all (its `verify_socket` is a no-op), so its sends go
through an unverified configuration. -/
theorem C3_verified_before_send (w : World) (ue lf : Bool) (st : SessionType)
    (session : Option Int) (socket path : Option String)
    (vars : List String) :
    checkVerified []
      (screenSendenvMain w ue lf st session socket path vars).2 = true := by
  cases st with
  | screen =>
    cases hoc : w.run (Sender.testVec w (.screen (mkScreen path socket))) with
    | ok =>
      cases lf with
      | true =>
        simp [screenSendenvMain, chooseSender, constructSender,
          Sender.verify_connection, hoc, checkVerified]
      | false =>
        simp only [screenSendenvMain, chooseSender, constructSender,
          Sender.verify_connection, hoc, Bool.false_eq_true, if_false,
          List.singleton_append]
        exact checkVerified_test_ok_sends w _ ue [] vars
    | nonzero c =>
      simp [screenSendenvMain, chooseSender, constructSender,
        Sender.verify_connection, hoc, checkVerified]
    | startFailure =>
      simp [screenSendenvMain, chooseSender, constructSender,
        Sender.verify_connection, hoc, checkVerified]
  | tmux =>
    cases hoc : w.run (Sender.testVec w (.tmux (mkTmux path socket session))) with
    | ok =>
      cases lf with
      | true =>
        simp [screenSendenvMain, chooseSender, constructSender,
          Sender.verify_connection, hoc, checkVerified]
      | false =>
        simp only [screenSendenvMain, chooseSender, constructSender,
          Sender.verify_connection, hoc, Bool.false_eq_true, if_false,
          List.singleton_append]
        exact checkVerified_test_ok_sends w _ ue [] vars
    | nonzero c =>
      simp [screenSendenvMain, chooseSender, constructSender,
        Sender.verify_connection, hoc, checkVerified]
    | startFailure =>
      simp [screenSendenvMain, chooseSender, constructSender,
        Sender.verify_connection, hoc, checkVerified]
  | auto =>
    cases hs : w.run (Sender.testVec w (autoScreen path socket)) with
    | ok =>
      cases lf with
      | true =>
        simp [screenSendenvMain, chooseSender, AutoSelectEnvSender,
          constructSender, Sender.verify_connection, hs, checkVerified]
      | false =>
        simp only [screenSendenvMain, chooseSender, AutoSelectEnvSender,
          constructSender, Sender.verify_connection, hs, Bool.false_eq_true,
          if_false, List.singleton_append]
        exact checkVerified_test_ok_sends w _ ue [] vars
    | nonzero c =>
      cases ht : w.run (Sender.testVec w (autoTmux path socket session)) with
      | ok =>
        cases lf with
        | true =>
          simp [screenSendenvMain, chooseSender, AutoSelectEnvSender,
            constructSender, Sender.verify_connection, hs, ht, checkVerified]
        | false =>
          simp only [screenSendenvMain, chooseSender, AutoSelectEnvSender,
            constructSender, Sender.verify_connection, hs, ht,
            Bool.false_eq_true, if_false, List.singleton_append,
            List.cons_append, List.nil_append]
          have h : checkVerified []
              (Event.test (Sender.sid (autoScreen path socket))
                (Sender.testVec w (autoScreen path socket)) (.nonzero c) ::
                Event.test (Sender.sid (autoTmux path socket session))
                  (Sender.testVec w (autoTmux path socket session)) .ok ::
                (sendLoop w (autoTmux path socket session) ue vars).2) =
              checkVerified []
                (Event.test (Sender.sid (autoTmux path socket session))
                  (Sender.testVec w (autoTmux path socket session)) .ok ::
                  (sendLoop w (autoTmux path socket session) ue vars).2) := by
            simp [checkVerified]
          rw [h]
          exact checkVerified_test_ok_sends w _ ue [] vars
      | nonzero c2 =>
        simp [screenSendenvMain, chooseSender, AutoSelectEnvSender,
          constructSender, Sender.verify_connection, hs, ht, checkVerified]
      | startFailure =>
        simp [screenSendenvMain, chooseSender, AutoSelectEnvSender,
          constructSender, Sender.verify_connection, hs, ht, checkVerified]
    | startFailure =>
      cases ht : w.run (Sender.testVec w (autoTmux path socket session)) with
      | ok =>
        cases lf with
        | true =>
          simp [screenSendenvMain, chooseSender, AutoSelectEnvSender,
            constructSender, Sender.verify_connection, hs, ht, checkVerified]
        | false =>
          simp only [screenSendenvMain, chooseSender, AutoSelectEnvSender,
            constructSender, Sender.verify_connection, hs, ht,
            Bool.false_eq_true, if_false, List.singleton_append,
            List.cons_append, List.nil_append]
          have h : checkVerified []
              (Event.test (Sender.sid (autoScreen path socket))
                (Sender.testVec w (autoScreen path socket)) .startFailure ::
                Event.test (Sender.sid (autoTmux path socket session))
                  (Sender.testVec w (autoTmux path socket session)) .ok ::
                (sendLoop w (autoTmux path socket session) ue vars).2) =
              checkVerified []
                (Event.test (Sender.sid (autoTmux path socket session))
                  (Sender.testVec w (autoTmux path socket session)) .ok ::
                  (sendLoop w (autoTmux path socket session) ue vars).2) := by
            simp [checkVerified]
          rw [h]
          exact checkVerified_test_ok_sends w _ ue [] vars
      | nonzero c2 =>
        simp [screenSendenvMain, chooseSender, AutoSelectEnvSender,
          constructSender, Sender.verify_connection, hs, ht, checkVerified]
      | startFailure =>
        simp [screenSendenvMain, chooseSender, AutoSelectEnvSender,
          constructSender, Sender.verify_connection, hs, ht, checkVerified]

end SendEnv
